import Mathlib

/-!
Shallow embedding of `src/MeetingLightController.ts` (In-Meeting-Automation).

The controller is a single-threaded object whose async operations are driven
by external events: poll ticks, incoming HTTP requests, the Google-Meet
liveness timeout, the network-reachability probe, and shutdown.  We embed it
as a state record `Ctrl` plus explicit transition functions, one per source
method, each returning the next state together with the list of
light-state-changing bridge requests (`PUT /lights/{id}/state` bodies) that
the operation issues.  Timers are modelled as stored deadlines (milliseconds,
matching the source's `30 * 1000`); a timer-fire event has an effect only
when the timer is armed and its deadline has elapsed, mirroring
`setTimeout`/`clearTimeout`.  Window enumeration (`openWindowsSync`) is an
external capability: each operation that consumes it takes a `WinResult`
argument (a snapshot, a permission-denied failure, or another failure).
Log output is modelled only where a claim is about logging.
-/

namespace InMeeting

/-- Character-list helper: does `need` occur as a contiguous run inside the
list?  Used to embed JavaScript `String.prototype.includes`. -/
def subAux (need : List Char) : List Char → Bool
  | [] => need.isEmpty
  | c :: t => need.isPrefixOf (c :: t) || subAux need t

/-- Embedding of JavaScript `s.includes(sub)` (substring containment). -/
def strIncludes (s sub : String) : Bool := subAux sub.data s.data

/-- Embedding of JavaScript `s.toLowerCase()` (character-wise lowering;
the detectors only compare ASCII patterns). -/
def lowerStr (s : String) : String := ⟨s.data.map Char.toLower⟩

/-- `w.owner` in a `get-windows` window descriptor: only `.name` is read. -/
structure WindowOwner where
  name : String
deriving DecidableEq, Repr

/-- A window descriptor as consumed by the controller: `title` and
`owner.name`. -/
structure Window where
  title : String
  owner : WindowOwner
deriving DecidableEq, Repr

/-- `detectSlackHuddle` (src/MeetingLightController.ts:44-49):
`windows.some(w => { if (w.owner.name !== "Slack") return false;
return w.title.includes("🏠") || w.title.toLowerCase().includes("huddle"); })` -/
def detectSlackHuddle (windows : List Window) : Bool :=
  windows.any fun w =>
    if w.owner.name ≠ "Slack" then false
    else strIncludes w.title "🏠" || strIncludes (lowerStr w.title) "huddle"

/-- `detectZoomMeeting` (src/MeetingLightController.ts:51-57):
owner name contains "zoom" (case-insensitively) and title contains
"zoom meeting" (case-insensitively). -/
def detectZoomMeeting (windows : List Window) : Bool :=
  windows.any fun w =>
    strIncludes (lowerStr w.owner.name) "zoom" &&
    strIncludes (lowerStr w.title) "zoom meeting"

/-- JSON body of a `PUT /lights/{id}/state` request (the fields the
controller ever sends: `on`, `bri`, `hue`, `sat`). -/
structure LightBody where
  «on» : Bool
  bri : Option Nat
  hue : Option Nat
  sat : Option Nat
deriving DecidableEq, Repr

/-- Meeting target: `{ on: true, bri: 254, hue: 0, sat: 254 }` (red). -/
def meetingBody : LightBody := ⟨true, some 254, some 0, some 254⟩

/-- Idle target: `{ on: true, bri: 200, hue: 46920, sat: 200 }` (cool blue). -/
def idleBody : LightBody := ⟨true, some 200, some 46920, some 200⟩

/-- Off target: `{ on: false }`. -/
def offBody : LightBody := ⟨false, none, none, none⟩

/-- One light-state-changing bridge request: light id and body. -/
abbrev LightReq := String × LightBody

/-- Requests issued by `setLight(isInMeeting)`
(src/MeetingLightController.ts:59-70): nothing when no lights are
configured, otherwise one state PUT per configured light, red when in a
meeting and cool blue otherwise.  All requests are issued (the per-light
`setSingleLight` catches its own failure). -/
def setLightReqs (lightIds : List String) (isInMeeting : Bool) : List LightReq :=
  if lightIds.isEmpty then []
  else lightIds.map fun id => (id, if isInMeeting then meetingBody else idleBody)

/-- Requests issued by `turnOffLights` (src/MeetingLightController.ts:99-114):
one `{ on: false }` PUT per configured light. -/
def turnOffReqs (lightIds : List String) : List LightReq :=
  if lightIds.isEmpty then []
  else lightIds.map fun id => (id, offBody)

/-- Outcome of a single `openWindowsSync()` call: a snapshot, a
screen-recording-permission failure, or some other failure. -/
inductive WinResult where
  | ok (ws : List Window)
  | permissionError
  | otherError
deriving DecidableEq, Repr

/-- Log lines the controller emits where a claim is about logging. -/
inductive Log where
  /-- `console.error("Error setting light ${lightId}:", err)` from
  `setSingleLight`'s catch. -/
  | lightError (id : String)
  /-- `console.error("Error turning off lights:", err)` from
  `turnOffLights`' catch (a single aggregate entry). -/
  | turnOffError
  /-- The multi-line screen-recording-permission warning from
  `getStatusFromWindows`. -/
  | permissionWarn
  /-- `console.error("Error getting status from windows:", err)`. -/
  | windowError
deriving DecidableEq, Repr

/-- The controller's mutable fields (src/MeetingLightController.ts:4-18),
plus `exited` for `process.exit`.  `pollingActive` / `serverActive` /
`netCheckActive` model whether `pollingInterval` / `server` /
`networkCheckInterval` are currently set; `meetTimer` is the
`googleMeetTimeout` deadline in milliseconds when armed. -/
structure Ctrl where
  lightIds : List String
  inMeeting : Bool
  googleMeetActive : Bool
  networkOnline : Bool
  pollingActive : Bool
  serverActive : Bool
  netCheckActive : Bool
  meetTimer : Option Nat
  screenRecordingErrorLogged : Bool
  exited : Bool
deriving DecidableEq, Repr

/-- Constructor state (src/MeetingLightController.ts:20-42) followed by
`run()` (line 132-134), which starts the network monitor: all flags false,
no timers, the network-probe interval armed. -/
def initCtrl (ids : List String) : Ctrl :=
  { lightIds := ids
    inMeeting := false
    googleMeetActive := false
    networkOnline := false
    pollingActive := false
    serverActive := false
    netCheckActive := true
    meetTimer := none
    screenRecordingErrorLogged := false
    exited := false }

/-- `getStatusFromWindows` (src/MeetingLightController.ts:231-262): on a
snapshot, run both detectors; on a screen-recording-permission failure,
report both signals false and emit the warning only if it has not been
logged before, latching `screenRecordingErrorLogged`; on any other failure,
report both signals false and log the error. -/
def getStatusFromWindows (s : Ctrl) (wr : WinResult) :
    Ctrl × (Bool × Bool) × List Log :=
  match wr with
  | .ok ws => (s, (detectSlackHuddle ws, detectZoomMeeting ws), [])
  | .permissionError =>
      if s.screenRecordingErrorLogged then (s, (false, false), [])
      else ({ s with screenRecordingErrorLogged := true }, (false, false),
            [Log.permissionWarn])
  | .otherError => (s, (false, false), [Log.windowError])

/-- The pure signal part of `getStatusFromWindows`: the booleans it returns
depend only on the enumeration outcome, not on the controller state. -/
def winSignals (wr : WinResult) : Bool × Bool :=
  match wr with
  | .ok ws => (detectSlackHuddle ws, detectZoomMeeting ws)
  | .permissionError => (false, false)
  | .otherError => (false, false)

/-- `check` (src/MeetingLightController.ts:146-167), the poll-tick body:
OR-reduce `inSlack`, `inZoom` and `googleMeetActive`; enter the meeting
state (red lights) when some signal is on and not yet in a meeting; leave it
(cool-blue lights) when no signal is on and currently in a meeting. -/
def check (s : Ctrl) (wr : WinResult) : Ctrl × List LightReq :=
  let r := getStatusFromWindows s wr
  let s1 := r.1
  let inSlack := r.2.1.1
  let inZoom := r.2.1.2
  let inGoogle := s1.googleMeetActive
  if (inSlack || inZoom || inGoogle) && !s1.inMeeting then
    ({ s1 with inMeeting := true }, setLightReqs s1.lightIds true)
  else if !(inSlack || inZoom || inGoogle) && s1.inMeeting then
    ({ s1 with inMeeting := false }, setLightReqs s1.lightIds false)
  else (s1, [])

/-- The liveness window: `30 * 1000` milliseconds
(src/MeetingLightController.ts:215). -/
def livenessWindowMs : Nat := 30 * 1000

/-- `onGoogleMeetStart` (src/MeetingLightController.ts:198-217): only when
not already in a meeting, set `inMeeting` and `googleMeetActive`, apply the
meeting target, clear any prior timeout and arm the 30-second liveness
timer. -/
def onGoogleMeetStart (s : Ctrl) (now : Nat) : Ctrl × List LightReq :=
  if !s.inMeeting then
    ({ s with inMeeting := true
              googleMeetActive := true
              meetTimer := some (now + livenessWindowMs) },
     setLightReqs s.lightIds true)
  else (s, [])

/-- `onGoogleMeetHeartbeat` (src/MeetingLightController.ts:219-229): only
when `googleMeetActive` and the timeout is armed, re-arm the liveness timer;
no meeting-state change, no light request. -/
def onGoogleMeetHeartbeat (s : Ctrl) (now : Nat) : Ctrl × List LightReq :=
  if s.googleMeetActive && s.meetTimer.isSome then
    ({ s with meetTimer := some (now + livenessWindowMs) }, [])
  else (s, [])

/-- `onGoogleMeetEnd` (src/MeetingLightController.ts:264-297): always clear
the liveness timeout first; re-evaluate the local window signals; when
neither local signal is on and a meeting is active, apply the idle target
and clear `inMeeting` and `googleMeetActive`; otherwise only log.
(The source's catch branch is unreachable: `getStatusFromWindows` and
`setLight` both swallow their own failures.) -/
def onGoogleMeetEnd (s : Ctrl) (wr : WinResult) : Ctrl × List LightReq :=
  let s0 := { s with meetTimer := none }
  let r := getStatusFromWindows s0 wr
  let s1 := r.1
  let inSlack := r.2.1.1
  let inZoom := r.2.1.2
  if !inSlack && !inZoom && s1.inMeeting then
    ({ s1 with inMeeting := false, googleMeetActive := false },
     setLightReqs s1.lightIds false)
  else (s1, [])

/-- An HTTP response of the webhook server: status, body, and the three
CORS headers it always sets (src/MeetingLightController.ts:172-174). -/
structure HttpResponse where
  status : Nat
  body : String
  corsAllowOrigin : String
  corsAllowMethods : String
  corsAllowHeaders : String
deriving DecidableEq, Repr

/-- The request handler installed by `startServer`
(src/MeetingLightController.ts:169-196): CORS headers on every response;
`OPTIONS` answered 204 with no dispatch; `POST` to the three meeting paths
dispatched to the corresponding handler; every non-OPTIONS request answered
200 with empty body. -/
def handleRequest (s : Ctrl) (m u : String) (wr : WinResult) (now : Nat) :
    Ctrl × List LightReq × HttpResponse :=
  if m = "OPTIONS" then
    (s, [], ⟨204, "", "*", "POST, OPTIONS", "Content-Type"⟩)
  else
    let d : Ctrl × List LightReq :=
      if m = "POST" ∧ u = "/meeting-start" then onGoogleMeetStart s now
      else if m = "POST" ∧ u = "/meeting-end" then onGoogleMeetEnd s wr
      else if m = "POST" ∧ u = "/meeting-heartbeat" then onGoogleMeetHeartbeat s now
      else (s, [])
    (d.1, d.2, ⟨200, "", "*", "POST, OPTIONS", "Content-Type"⟩)

/-- The body of the network monitor's probe callback
(src/MeetingLightController.ts:328-351): Offline→Online starts the webhook
server, then either lists lights and exits (no lights configured) or drives
all lights to idle (`initializeLights`, line 136-140) and starts polling;
Online→Offline runs `pauseController` (line 362-374), which stops polling
and closes the server but leaves `googleMeetTimeout` untouched. -/
def netCheck (s : Ctrl) (avail : Bool) : Ctrl × List LightReq :=
  if avail && !s.networkOnline then
    if s.lightIds.isEmpty then
      ({ s with networkOnline := true, serverActive := true, exited := true }, [])
    else
      ({ s with networkOnline := true, serverActive := true, pollingActive := true },
       setLightReqs s.lightIds false)
  else if !avail && s.networkOnline then
    ({ s with networkOnline := false, pollingActive := false, serverActive := false }, [])
  else (s, [])

/-- `shutdown` (src/MeetingLightController.ts:299-326): clear the polling
and network-probe intervals and the liveness timeout, close the server, and
turn every configured light off (`turnOffLights`), unconditionally. -/
def shutdown (s : Ctrl) : Ctrl × List LightReq :=
  ({ s with pollingActive := false
            netCheckActive := false
            meetTimer := none
            serverActive := false },
   turnOffReqs s.lightIds)

/-- External events that drive the controller. -/
inductive Event where
  /-- A poll-interval tick (only has an effect while the interval is set). -/
  | poll (wr : WinResult)
  /-- An incoming HTTP request (only handled while the server is up). -/
  | request (m u : String) (wr : WinResult) (now : Nat)
  /-- The liveness timeout firing at time `now` (only has an effect when
  the timer is armed and its deadline has elapsed). -/
  | timerFire (wr : WinResult) (now : Nat)
  /-- A network-probe tick with the probe's outcome. -/
  | netCheck (avail : Bool)
  /-- SIGINT/SIGTERM-triggered shutdown. -/
  | shutdown
deriving DecidableEq, Repr

/-- One event step of the controller, returning the next state and the
light-state-changing requests issued while handling the event. -/
def stepCtrl (s : Ctrl) (e : Event) : Ctrl × List LightReq :=
  if s.exited then (s, [])
  else
    match e with
    | .poll wr => if s.pollingActive then check s wr else (s, [])
    | .request m u wr now =>
        if s.serverActive then
          let r := handleRequest s m u wr now
          (r.1, r.2.1)
        else (s, [])
    | .timerFire wr now =>
        match s.meetTimer with
        | some d => if d ≤ now then onGoogleMeetEnd s wr else (s, [])
        | none => (s, [])
    | .netCheck avail => if s.netCheckActive then netCheck s avail else (s, [])
    | .shutdown => shutdown s

/-- States reachable from some constructor state by event steps. -/
inductive Reachable : Ctrl → Prop where
  | init (ids : List String) : Reachable (initCtrl ids)
  | step {s : Ctrl} (e : Event) : Reachable s → Reachable (stepCtrl s e).1

/-- Run a list of poll-tick bodies (`check`) through the state. -/
def runChecks (s : Ctrl) : List WinResult → Ctrl
  | [] => s
  | wr :: t => runChecks (check s wr).1 t

/-- Thread a list of window-enumeration outcomes through
`getStatusFromWindows`, collecting all emitted log lines. -/
def runStatuses (s : Ctrl) : List WinResult → List Log
  | [] => []
  | wr :: t =>
      let r := getStatusFromWindows s wr
      r.2.2 ++ runStatuses r.1 t

/-- Count of screen-recording-permission warnings in a log list. -/
def permLogCount : List Log → Nat
  | [] => 0
  | Log.permissionWarn :: t => permLogCount t + 1
  | _ :: t => permLogCount t

/-- Per-light outcome model of `setLight` (src/MeetingLightController.ts:
59-70): `fails` says which lights' PUTs fail.  All lights' requests are
issued (the promises are all created before any is awaited), and each
failing light is logged individually by `setSingleLight`'s own catch
(line 94-96); the promises therefore never reject and `Promise.all`
resolves. -/
def setLightRun (lightIds : List String) (isInMeeting : Bool)
    (fails : String → Bool) : List LightReq × List Log :=
  (setLightReqs lightIds isInMeeting,
   (lightIds.filter fails).map Log.lightError)

/-- Per-light outcome model of `turnOffLights` (src/MeetingLightController.
ts:99-114): the raw `fetch` promises are all created (so every light's
request is issued), but there is no per-light catch; `Promise.all` rejects
with the first failure and the surrounding catch logs a single aggregate
error. -/
def turnOffRun (lightIds : List String) (fails : String → Bool) :
    List LightReq × List Log :=
  (turnOffReqs lightIds,
   if lightIds.any fails then [Log.turnOffError] else [])

/-! ## Sample inputs used by witnesses and counterexamples -/

/-- A window that the Slack-huddle detector matches. -/
def slackHuddleWin : Window := ⟨"Huddle: daily sync", ⟨"Slack"⟩⟩

/-- A window that the Zoom-meeting detector matches. -/
def zoomWin : Window := ⟨"Zoom Meeting - standup", ⟨"zoom.us"⟩⟩

/-- A window neither detector matches. -/
def plainWin : Window := ⟨"Inbox", ⟨"Mail"⟩⟩

/-! ## Helper lemmas -/

/-- `List.any` is invariant under permutation of the list. -/
theorem perm_any {α : Type} {l l' : List α} (h : l.Perm l') (p : α → Bool) :
    l.any p = l'.any p := by
  rw [Bool.eq_iff_iff, List.any_eq_true, List.any_eq_true]
  constructor <;> rintro ⟨x, hx, hpx⟩
  exacts [⟨x, h.mem_iff.mp hx, hpx⟩, ⟨x, h.mem_iff.mpr hx, hpx⟩]

/-- `getStatusFromWindows` changes no field except
`screenRecordingErrorLogged`. -/
theorem getStatus_frame (s : Ctrl) (wr : WinResult) :
    (getStatusFromWindows s wr).1.lightIds = s.lightIds ∧
    (getStatusFromWindows s wr).1.inMeeting = s.inMeeting ∧
    (getStatusFromWindows s wr).1.googleMeetActive = s.googleMeetActive ∧
    (getStatusFromWindows s wr).1.networkOnline = s.networkOnline ∧
    (getStatusFromWindows s wr).1.pollingActive = s.pollingActive ∧
    (getStatusFromWindows s wr).1.serverActive = s.serverActive ∧
    (getStatusFromWindows s wr).1.netCheckActive = s.netCheckActive ∧
    (getStatusFromWindows s wr).1.meetTimer = s.meetTimer ∧
    (getStatusFromWindows s wr).1.exited = s.exited := by
  cases wr <;> simp [getStatusFromWindows]
  split <;> simp

/-- The signal booleans returned by `getStatusFromWindows` depend only on
the enumeration outcome. -/
theorem getStatus_signals (s : Ctrl) (wr : WinResult) :
    (getStatusFromWindows s wr).2.1 = winSignals wr := by
  cases wr <;> simp [getStatusFromWindows, winSignals]
  split <;> simp

/-- The poll body `check` changes no field except `inMeeting` and
`screenRecordingErrorLogged`. -/
theorem check_frame (s : Ctrl) (wr : WinResult) :
    (check s wr).1.lightIds = s.lightIds ∧
    (check s wr).1.googleMeetActive = s.googleMeetActive ∧
    (check s wr).1.networkOnline = s.networkOnline ∧
    (check s wr).1.pollingActive = s.pollingActive ∧
    (check s wr).1.serverActive = s.serverActive ∧
    (check s wr).1.netCheckActive = s.netCheckActive ∧
    (check s wr).1.meetTimer = s.meetTimer ∧
    (check s wr).1.exited = s.exited := by
  obtain ⟨h1, h2, h3, h4, h5, h6, h7, h8, h9⟩ := getStatus_frame s wr
  simp only [check]
  split
  · simp_all
  · split <;> simp_all

/-- `onGoogleMeetStart` changes no field except `inMeeting`,
`googleMeetActive` and `meetTimer`. -/
theorem onStart_frame (s : Ctrl) (now : Nat) :
    (onGoogleMeetStart s now).1.lightIds = s.lightIds ∧
    (onGoogleMeetStart s now).1.networkOnline = s.networkOnline ∧
    (onGoogleMeetStart s now).1.pollingActive = s.pollingActive ∧
    (onGoogleMeetStart s now).1.serverActive = s.serverActive ∧
    (onGoogleMeetStart s now).1.netCheckActive = s.netCheckActive ∧
    (onGoogleMeetStart s now).1.screenRecordingErrorLogged
      = s.screenRecordingErrorLogged ∧
    (onGoogleMeetStart s now).1.exited = s.exited := by
  simp only [onGoogleMeetStart]
  split <;> simp

/-- `onGoogleMeetHeartbeat` changes no field except `meetTimer`. -/
theorem heartbeat_frame (s : Ctrl) (now : Nat) :
    (onGoogleMeetHeartbeat s now).1.lightIds = s.lightIds ∧
    (onGoogleMeetHeartbeat s now).1.inMeeting = s.inMeeting ∧
    (onGoogleMeetHeartbeat s now).1.googleMeetActive = s.googleMeetActive ∧
    (onGoogleMeetHeartbeat s now).1.networkOnline = s.networkOnline ∧
    (onGoogleMeetHeartbeat s now).1.pollingActive = s.pollingActive ∧
    (onGoogleMeetHeartbeat s now).1.serverActive = s.serverActive ∧
    (onGoogleMeetHeartbeat s now).1.netCheckActive = s.netCheckActive ∧
    (onGoogleMeetHeartbeat s now).1.screenRecordingErrorLogged
      = s.screenRecordingErrorLogged ∧
    (onGoogleMeetHeartbeat s now).1.exited = s.exited := by
  simp only [onGoogleMeetHeartbeat]
  split <;> simp

/-- `onGoogleMeetEnd` changes no field except `inMeeting`,
`googleMeetActive`, `meetTimer` and `screenRecordingErrorLogged`, and always
leaves the liveness timer disarmed. -/
theorem onEnd_frame (s : Ctrl) (wr : WinResult) :
    (onGoogleMeetEnd s wr).1.lightIds = s.lightIds ∧
    (onGoogleMeetEnd s wr).1.networkOnline = s.networkOnline ∧
    (onGoogleMeetEnd s wr).1.pollingActive = s.pollingActive ∧
    (onGoogleMeetEnd s wr).1.serverActive = s.serverActive ∧
    (onGoogleMeetEnd s wr).1.netCheckActive = s.netCheckActive ∧
    (onGoogleMeetEnd s wr).1.exited = s.exited ∧
    (onGoogleMeetEnd s wr).1.meetTimer = none := by
  obtain ⟨h1, h2, h3, h4, h5, h6, h7, h8, h9⟩ :=
    getStatus_frame { s with meetTimer := none } wr
  simp only [onGoogleMeetEnd]
  split <;> simp_all

/-- The dispatch of `handleRequest` changes no field outside of what the
three webhook handlers change. -/
theorem handleRequest_frame (s : Ctrl) (m u : String) (wr : WinResult)
    (now : Nat) :
    (handleRequest s m u wr now).1.lightIds = s.lightIds ∧
    (handleRequest s m u wr now).1.networkOnline = s.networkOnline ∧
    (handleRequest s m u wr now).1.pollingActive = s.pollingActive ∧
    (handleRequest s m u wr now).1.serverActive = s.serverActive ∧
    (handleRequest s m u wr now).1.netCheckActive = s.netCheckActive ∧
    (handleRequest s m u wr now).1.exited = s.exited := by
  obtain ⟨a1, a2, a3, a4, a5, a6, a7⟩ := onStart_frame s now
  obtain ⟨b1, b2, b3, b4, b5, b6, b7, b8, b9⟩ := heartbeat_frame s now
  obtain ⟨c1, c2, c3, c4, c5, c6, c7⟩ := onEnd_frame s wr
  simp only [handleRequest]
  split
  · simp
  · split
    · simp_all
    · split
      · simp_all
      · split <;> simp_all

/-- `netCheck` changes no field among `inMeeting`, `googleMeetActive`,
`meetTimer`, `screenRecordingErrorLogged`, `lightIds`, `netCheckActive`. -/
theorem netCheck_frame (s : Ctrl) (avail : Bool) :
    (netCheck s avail).1.lightIds = s.lightIds ∧
    (netCheck s avail).1.inMeeting = s.inMeeting ∧
    (netCheck s avail).1.googleMeetActive = s.googleMeetActive ∧
    (netCheck s avail).1.meetTimer = s.meetTimer ∧
    (netCheck s avail).1.netCheckActive = s.netCheckActive ∧
    (netCheck s avail).1.screenRecordingErrorLogged
      = s.screenRecordingErrorLogged := by
  simp only [netCheck]
  split
  · split <;> simp
  · split <;> simp

/-- `shutdown` clears the intervals, the timer and the server and changes
nothing else. -/
theorem shutdown_frame (s : Ctrl) :
    (shutdown s).1.lightIds = s.lightIds ∧
    (shutdown s).1.inMeeting = s.inMeeting ∧
    (shutdown s).1.googleMeetActive = s.googleMeetActive ∧
    (shutdown s).1.networkOnline = s.networkOnline ∧
    (shutdown s).1.pollingActive = false ∧
    (shutdown s).1.serverActive = false ∧
    (shutdown s).1.netCheckActive = false ∧
    (shutdown s).1.meetTimer = none ∧
    (shutdown s).1.exited = s.exited := by
  simp [shutdown]

/-! ## Reachability invariants -/

/-- Invariant: while the bridge is offline, the polling interval is not set
and the webhook server is not up — those are started only on the
Offline→Online transition and always torn down by `pauseController` on the
Online→Offline transition. -/
theorem reachable_offline_inactive {s : Ctrl} (h : Reachable s) :
    s.networkOnline = false → s.pollingActive = false ∧ s.serverActive = false := by
  induction h with
  | init ids => exact fun _ => ⟨rfl, rfl⟩
  | step e hr ih =>
    rename_i s
    cases e with
    | poll wr =>
      simp only [stepCtrl]
      split
      · exact ih
      · split
        · obtain ⟨_, _, h3, h4, h5, _⟩ := check_frame s wr
          rw [h3, h4, h5]; exact ih
        · exact ih
    | request m u wr now =>
      simp only [stepCtrl]
      split
      · exact ih
      · split
        · obtain ⟨_, h2, h3, h4, _⟩ := handleRequest_frame s m u wr now
          rw [h2, h3, h4]; exact ih
        · exact ih
    | timerFire wr now =>
      simp only [stepCtrl]
      split
      · exact ih
      · split
        · split
          · obtain ⟨_, h2, h3, h4, _⟩ := onEnd_frame s wr
            rw [h2, h3, h4]; exact ih
          · exact ih
        · exact ih
    | netCheck avail =>
      simp only [stepCtrl]
      split
      · exact ih
      · split
        · simp only [netCheck]
          split
          · split <;> simp
          · split
            · simp
            · exact ih
        · exact ih
    | shutdown =>
      simp only [stepCtrl]
      split
      · exact ih
      · obtain ⟨_, _, _, _, h5, h6, _⟩ := shutdown_frame s
        exact fun _ => ⟨h5, h6⟩

/-- The liveness-timer invariant: whenever `googleMeetTimeout` is armed, the
controller is in a meeting and the Google-Meet flag is set (the timer is
only armed by `onGoogleMeetStart`/`onGoogleMeetHeartbeat`, which establish
both, and every path that clears either flag disarms the timer first). -/
def TimerInv (s : Ctrl) : Prop :=
  s.meetTimer.isSome = true → s.inMeeting = true ∧ s.googleMeetActive = true

/-- `check` preserves the timer invariant. -/
theorem check_timerInv (s : Ctrl) (wr : WinResult) (ih : TimerInv s) :
    TimerInv (check s wr).1 := by
  obtain ⟨h1, h2, h3, h4, h5, h6, h7, h8, h9⟩ := getStatus_frame s wr
  intro hsome
  obtain ⟨_, hg, _, _, _, _, ht, _⟩ := check_frame s wr
  rw [ht] at hsome
  obtain ⟨him, hgm⟩ := ih hsome
  rw [hg]
  refine ⟨?_, hgm⟩
  simp only [check]
  split
  · simp
  · split
    · rename_i hcond
      rw [h3, hgm] at hcond
      simp at hcond
    · simp only [h2, him]

/-- `onGoogleMeetStart` preserves the timer invariant. -/
theorem onStart_timerInv (s : Ctrl) (now : Nat) (ih : TimerInv s) :
    TimerInv (onGoogleMeetStart s now).1 := by
  by_cases hm : s.inMeeting = true
  · simpa [TimerInv, onGoogleMeetStart, hm] using ih
  · intro _
    simp [onGoogleMeetStart, hm]

/-- `onGoogleMeetHeartbeat` preserves the timer invariant. -/
theorem heartbeat_timerInv (s : Ctrl) (now : Nat) (ih : TimerInv s) :
    TimerInv (onGoogleMeetHeartbeat s now).1 := by
  intro hsome
  obtain ⟨_, h2, h3, _⟩ := heartbeat_frame s now
  rw [h2, h3]
  simp only [onGoogleMeetHeartbeat] at hsome
  split at hsome <;> rename_i hcond
  · simp only [Bool.and_eq_true] at hcond
    exact ⟨(ih hcond.2).1, hcond.1⟩
  · exact ih hsome

/-- `onGoogleMeetEnd` trivially preserves the timer invariant: it always
disarms the timer. -/
theorem onEnd_timerInv (s : Ctrl) (wr : WinResult) :
    TimerInv (onGoogleMeetEnd s wr).1 := by
  intro hsome
  obtain ⟨_, _, _, _, _, _, h7⟩ := onEnd_frame s wr
  rw [h7] at hsome
  simp at hsome

/-- Invariant over reachable states: an armed liveness timer implies
`inMeeting` and `googleMeetActive`. -/
theorem reachable_timerInv {s : Ctrl} (h : Reachable s) : TimerInv s := by
  induction h with
  | init ids => intro hsome; simp [initCtrl] at hsome
  | step e hr ih =>
    rename_i s
    cases e with
    | poll wr =>
      simp only [stepCtrl]
      split
      · exact ih
      · split
        · exact check_timerInv s wr ih
        · exact ih
    | request m u wr now =>
      simp only [stepCtrl]
      split
      · exact ih
      · split
        · simp only [handleRequest]
          split
          · exact ih
          · split
            · exact onStart_timerInv s now ih
            · split
              · exact onEnd_timerInv s wr
              · split
                · exact heartbeat_timerInv s now ih
                · exact ih
        · exact ih
    | timerFire wr now =>
      simp only [stepCtrl]
      split
      · exact ih
      · split
        · split
          · exact onEnd_timerInv s wr
          · exact ih
        · exact ih
    | netCheck avail =>
      simp only [stepCtrl]
      split
      · exact ih
      · split
        · intro hsome
          obtain ⟨_, h2, h3, h4, _⟩ := netCheck_frame s avail
          rw [h4] at hsome
          rw [h2, h3]
          exact ih hsome
        · exact ih
    | shutdown =>
      simp only [stepCtrl]
      split
      · exact ih
      · intro hsome
        obtain ⟨_, _, _, _, _, _, _, h8, _⟩ := shutdown_frame s
        rw [h8] at hsome
        simp at hsome

/-- Pointwise form of the Slack-huddle predicate. -/
theorem slack_pred_iff (w : Window) :
    ((if w.owner.name ≠ "Slack" then false
      else strIncludes w.title "🏠" || strIncludes (lowerStr w.title) "huddle") = true)
    ↔ w.owner.name = "Slack" ∧
      (strIncludes w.title "🏠" = true ∨
        strIncludes (lowerStr w.title) "huddle" = true) := by
  by_cases h : w.owner.name = "Slack" <;> simp [h]

/-- Behaviour of `onGoogleMeetEnd` in all three signal situations; shared by
several claims. -/
theorem onEnd_behavior (s : Ctrl) (wr : WinResult) :
    (onGoogleMeetEnd s wr).1.meetTimer = none ∧
    ((winSignals wr).1 = false → (winSignals wr).2 = false → s.inMeeting = true →
      (onGoogleMeetEnd s wr).1.inMeeting = false ∧
      (onGoogleMeetEnd s wr).1.googleMeetActive = false ∧
      (onGoogleMeetEnd s wr).2 = setLightReqs s.lightIds false) ∧
    (((winSignals wr).1 = true ∨ (winSignals wr).2 = true) →
      (onGoogleMeetEnd s wr).1.inMeeting = s.inMeeting ∧
      (onGoogleMeetEnd s wr).1.googleMeetActive = s.googleMeetActive ∧
      (onGoogleMeetEnd s wr).2 = []) ∧
    (s.inMeeting = false →
      (onGoogleMeetEnd s wr).1.inMeeting = false ∧
      (onGoogleMeetEnd s wr).1.googleMeetActive = s.googleMeetActive ∧
      (onGoogleMeetEnd s wr).2 = []) := by
  obtain ⟨ids, im, gma, net, pa, sa, nca, mt, srl, ex⟩ := s
  cases wr with
  | ok ws =>
    cases hS : detectSlackHuddle ws <;> cases hZ : detectZoomMeeting ws <;>
      cases im <;>
        simp [onGoogleMeetEnd, getStatusFromWindows, winSignals, hS, hZ]
  | permissionError =>
    cases srl <;> cases im <;>
      simp [onGoogleMeetEnd, getStatusFromWindows, winSignals]
  | otherError =>
    cases im <;> simp [onGoogleMeetEnd, getStatusFromWindows, winSignals]

/-! ## C7 -/

/-- C7: over every window list, the Slack detector is true iff some window's
owner is exactly "Slack" with a title containing "🏠" or the lowercased
substring "huddle"; the Zoom detector is true iff some window's lowercased
owner contains "zoom" and lowercased title contains "zoom meeting"; both are
order-independent over the list and false on the empty list. -/
theorem detectors_spec (ws : List Window) :
    (detectSlackHuddle ws = true ↔
      ∃ w ∈ ws, w.owner.name = "Slack" ∧
        (strIncludes w.title "🏠" = true ∨
          strIncludes (lowerStr w.title) "huddle" = true)) ∧
    (detectZoomMeeting ws = true ↔
      ∃ w ∈ ws, strIncludes (lowerStr w.owner.name) "zoom" = true ∧
        strIncludes (lowerStr w.title) "zoom meeting" = true) ∧
    (∀ ws' : List Window, ws.Perm ws' →
      detectSlackHuddle ws = detectSlackHuddle ws' ∧
      detectZoomMeeting ws = detectZoomMeeting ws') ∧
    detectSlackHuddle [] = false ∧ detectZoomMeeting [] = false := by
  refine ⟨?_, ?_, ?_, rfl, rfl⟩
  · simp only [detectSlackHuddle, List.any_eq_true, slack_pred_iff]
  · simp only [detectZoomMeeting, List.any_eq_true, Bool.and_eq_true]
  · intro ws' hperm
    simp only [detectSlackHuddle, detectZoomMeeting]
    exact ⟨perm_any hperm _, perm_any hperm _⟩

/-- Witness for C7 at a concrete two-element list and its swap. -/
theorem detectors_spec_witness :
    detectSlackHuddle [slackHuddleWin, plainWin]
        = detectSlackHuddle [plainWin, slackHuddleWin] ∧
    detectZoomMeeting [slackHuddleWin, plainWin]
        = detectZoomMeeting [plainWin, slackHuddleWin] :=
  (detectors_spec [slackHuddleWin, plainWin]).2.2.1 [plainWin, slackHuddleWin]
    (List.Perm.swap plainWin slackHuddleWin [])

/-! ## C3 -/

/-- C3 counterexample: for the Off target (`turnOffLights`) with two
configured lights both failing, the code logs one aggregate error, not one
log per failing light as the claim requires for every visual target. -/
theorem turnOff_aggregate_counterexample :
    (turnOffRun ["1", "2"] (fun _ => true)).2 = [Log.turnOffError] ∧
    ¬((turnOffRun ["1", "2"] (fun _ => true)).2.length
        = (["1", "2"].filter (fun _ => true)).length) := by
  exact ⟨rfl, by decide⟩

/-- C3 amended: for the Meeting and Idle targets, one apply per light is
issued regardless of which lights fail and each failure is logged
individually; for the Off target, one request per light is still issued (a
failing sibling never aborts or skips the others' requests, which are all
already in flight) but failures produce at most one aggregate log entry. -/
theorem applyAll_isolation (ids : List String) (fails : String → Bool) (b : Bool) :
    (setLightRun ids b fails).1
        = ids.map (fun id => (id, if b then meetingBody else idleBody)) ∧
    (setLightRun ids b fails).2 = (ids.filter fails).map Log.lightError ∧
    (turnOffRun ids fails).1 = ids.map (fun id => (id, offBody)) ∧
    (turnOffRun ids fails).2.length ≤ 1 := by
  refine ⟨?_, rfl, ?_, ?_⟩
  · cases ids <;> simp [setLightRun, setLightReqs]
  · cases ids <;> simp [turnOffRun, turnOffReqs]
  · simp only [turnOffRun]
    split <;> simp

/-! ## C2 -/

/-- C2 counterexample: shutdown with one configured light issues the
power-off body `{on:false}`, which is not the idle cool-blue body the claim
describes. -/
theorem shutdown_not_idle_counterexample :
    (stepCtrl (initCtrl ["1"]) Event.shutdown).2 = [("1", offBody)] ∧
    (stepCtrl (initCtrl ["1"]) Event.shutdown).2 ≠ [("1", idleBody)] := by
  exact ⟨rfl, by decide⟩

/-- C2 amended: on shutdown, the controller performs a best-effort power-off
(`{on:false}`) of every configured light — not a reset to the idle
cool-blue visual state — and tears down the intervals, the liveness timer
and the server before the process exits. -/
theorem shutdown_spec (s : Ctrl) (h : s.exited = false) :
    (stepCtrl s Event.shutdown).2 = s.lightIds.map (fun id => (id, offBody)) ∧
    (stepCtrl s Event.shutdown).1.pollingActive = false ∧
    (stepCtrl s Event.shutdown).1.netCheckActive = false ∧
    (stepCtrl s Event.shutdown).1.serverActive = false ∧
    (stepCtrl s Event.shutdown).1.meetTimer = none := by
  have hreq : turnOffReqs s.lightIds = s.lightIds.map (fun id => (id, offBody)) := by
    cases hl : s.lightIds <;> simp [turnOffReqs]
  simp [stepCtrl, h, shutdown, hreq]

/-- Witness for C2's amended theorem at the initial state with one light. -/
theorem shutdown_spec_witness :
    (stepCtrl (initCtrl ["1"]) Event.shutdown).2
        = (initCtrl ["1"]).lightIds.map (fun id => (id, offBody)) ∧
    (stepCtrl (initCtrl ["1"]) Event.shutdown).1.pollingActive = false ∧
    (stepCtrl (initCtrl ["1"]) Event.shutdown).1.netCheckActive = false ∧
    (stepCtrl (initCtrl ["1"]) Event.shutdown).1.serverActive = false ∧
    (stepCtrl (initCtrl ["1"]) Event.shutdown).1.meetTimer = none :=
  shutdown_spec (initCtrl ["1"]) rfl

/-! ## C4 -/

/-- C4: `onGoogleMeetEnd` cancels the liveness timer and re-evaluates the
local signals; when neither local signal is active and the controller is in
a meeting it clears the Google-Meet flag, leaves the meeting state and
applies the idle target to every light; when a local signal is active it
leaves the meeting state and the Google-Meet flag unchanged and issues no
light request (it only logs). -/
theorem onEnd_spec (s : Ctrl) (wr : WinResult) :
    (onGoogleMeetEnd s wr).1.meetTimer = none ∧
    ((winSignals wr).1 = false → (winSignals wr).2 = false → s.inMeeting = true →
      (onGoogleMeetEnd s wr).1.inMeeting = false ∧
      (onGoogleMeetEnd s wr).1.googleMeetActive = false ∧
      (onGoogleMeetEnd s wr).2 = setLightReqs s.lightIds false) ∧
    (((winSignals wr).1 = true ∨ (winSignals wr).2 = true) →
      (onGoogleMeetEnd s wr).1.inMeeting = s.inMeeting ∧
      (onGoogleMeetEnd s wr).1.googleMeetActive = s.googleMeetActive ∧
      (onGoogleMeetEnd s wr).2 = []) := by
  obtain ⟨h1, h2, h3, _⟩ := onEnd_behavior s wr
  exact ⟨h1, h2, h3⟩

/-- A controller state in a Google-Meet meeting, used by witnesses. -/
def meetCtrl : Ctrl :=
  { lightIds := ["1"]
    inMeeting := true
    googleMeetActive := true
    networkOnline := true
    pollingActive := true
    serverActive := true
    netCheckActive := true
    meetTimer := some livenessWindowMs
    screenRecordingErrorLogged := false
    exited := false }

/-- Witness for C4 at a concrete in-meeting state with an empty window
snapshot. -/
theorem onEnd_spec_witness :
    (onGoogleMeetEnd meetCtrl (WinResult.ok [])).1.inMeeting = false ∧
    (onGoogleMeetEnd meetCtrl (WinResult.ok [])).1.googleMeetActive = false ∧
    (onGoogleMeetEnd meetCtrl (WinResult.ok [])).2 = setLightReqs ["1"] false :=
  (onEnd_spec meetCtrl (WinResult.ok [])).2.1 rfl rfl rfl

/-- `onGoogleMeetStart` from a not-in-meeting state: sets both meeting
flags, arms the liveness timer and applies the meeting target. -/
theorem onStart_not_in_meeting (s : Ctrl) (t : Nat) (h : s.inMeeting = false) :
    onGoogleMeetStart s t
      = ({ s with
            inMeeting := true
            googleMeetActive := true
            meetTimer := some (t + livenessWindowMs) },
         setLightReqs s.lightIds true) := by
  simp [onGoogleMeetStart, h]

/-- `onGoogleMeetStart` while already in a meeting is a complete no-op. -/
theorem onStart_in_meeting (s : Ctrl) (t : Nat) (h : s.inMeeting = true) :
    onGoogleMeetStart s t = (s, []) := by
  simp [onGoogleMeetStart, h]

/-! ## C1 -/

/-- C1 counterexample: the constructor state is reachable and offline
(`networkOnline = false`), yet the shutdown operation issued from it still
sends light-state-changing requests to the bridge — reachability gating
does not cover shutdown. -/
theorem offline_gating_counterexample :
    Reachable (initCtrl ["1"]) ∧
    (initCtrl ["1"]).networkOnline = false ∧
    (stepCtrl (initCtrl ["1"]) Event.shutdown).2 ≠ [] :=
  ⟨Reachable.init ["1"], rfl, by decide⟩

/-- C1 amended: in every reachable offline state the polling interval and
the webhook server are down, so the poll check and the webhook handlers
cannot run and issue no light requests; shutdown (and an armed
liveness-timer expiry) remain ungated. -/
theorem offline_no_poll_or_webhook (s : Ctrl) (hr : Reachable s)
    (hoff : s.networkOnline = false) :
    s.pollingActive = false ∧ s.serverActive = false ∧
    (∀ wr, stepCtrl s (Event.poll wr) = (s, [])) ∧
    (∀ m u wr now, stepCtrl s (Event.request m u wr now) = (s, [])) := by
  obtain ⟨hp, hs⟩ := reachable_offline_inactive hr hoff
  refine ⟨hp, hs, ?_, ?_⟩
  · intro wr; simp [stepCtrl, hp]
  · intro m u wr now; simp [stepCtrl, hs]

/-- Witness for C1's amended theorem at the initial (offline) state. -/
theorem offline_no_poll_or_webhook_witness :
    (initCtrl ["1"]).pollingActive = false ∧
    (initCtrl ["1"]).serverActive = false ∧
    stepCtrl (initCtrl ["1"]) (Event.poll (WinResult.ok [])) = (initCtrl ["1"], []) ∧
    stepCtrl (initCtrl ["1"]) (Event.request "POST" "/meeting-start" (WinResult.ok []) 0)
        = (initCtrl ["1"], []) := by
  obtain ⟨h1, h2, h3, h4⟩ :=
    offline_no_poll_or_webhook (initCtrl ["1"]) (Reachable.init ["1"]) rfl
  exact ⟨h1, h2, h3 _, h4 _ _ _ _⟩

/-! ## C5 -/

/-- C5: after `onGoogleMeetStart` with no heartbeat or end, once the
30-second liveness window has elapsed the timer expiry behaves like
`onGoogleMeetEnd`: with no local signal active the state transitions from
InMeeting back to NotInMeeting exactly once (a second expiry event is a
no-op) and the idle target is applied to every light. -/
theorem liveness_expiry (s : Ctrl) (t tf : Nat) (wr : WinResult)
    (h0 : s.inMeeting = false) (hex : s.exited = false)
    (hel : t + livenessWindowMs ≤ tf)
    (hq1 : (winSignals wr).1 = false) (hq2 : (winSignals wr).2 = false) :
    (onGoogleMeetStart s t).1.inMeeting = true ∧
    (onGoogleMeetStart s t).1.meetTimer = some (t + livenessWindowMs) ∧
    (stepCtrl (onGoogleMeetStart s t).1 (Event.timerFire wr tf)).1.inMeeting = false ∧
    (stepCtrl (onGoogleMeetStart s t).1 (Event.timerFire wr tf)).1.meetTimer = none ∧
    (stepCtrl (onGoogleMeetStart s t).1 (Event.timerFire wr tf)).2
        = setLightReqs s.lightIds false ∧
    (∀ wr' tf',
      stepCtrl (stepCtrl (onGoogleMeetStart s t).1 (Event.timerFire wr tf)).1
          (Event.timerFire wr' tf')
        = ((stepCtrl (onGoogleMeetStart s t).1 (Event.timerFire wr tf)).1, [])) := by
  have h1 : (onGoogleMeetStart s t).1
      = { s with
          inMeeting := true
          googleMeetActive := true
          meetTimer := some (t + livenessWindowMs) } := by
    rw [onStart_not_in_meeting s t h0]
  have him : (onGoogleMeetStart s t).1.inMeeting = true := by rw [h1]
  have hmt : (onGoogleMeetStart s t).1.meetTimer = some (t + livenessWindowMs) := by
    rw [h1]
  have hl : (onGoogleMeetStart s t).1.lightIds = s.lightIds := by rw [h1]
  have hstep : stepCtrl (onGoogleMeetStart s t).1 (Event.timerFire wr tf)
      = onGoogleMeetEnd (onGoogleMeetStart s t).1 wr := by
    rw [h1]; simp [stepCtrl, hex, hel]
  obtain ⟨g1, g2, g3, g4⟩ := onEnd_behavior (onGoogleMeetStart s t).1 wr
  obtain ⟨q1, q2, q3⟩ := g2 hq1 hq2 him
  obtain ⟨e1, e2, e3, e4, e5, e6, e7⟩ := onEnd_frame (onGoogleMeetStart s t).1 wr
  have hex2 : (onGoogleMeetEnd (onGoogleMeetStart s t).1 wr).1.exited = false := by
    rw [e6, h1]; exact hex
  refine ⟨him, hmt, ?_, ?_, ?_, ?_⟩
  · rw [hstep]; exact q1
  · rw [hstep]; exact g1
  · rw [hstep, q3, hl]
  · intro wr' tf'
    rw [hstep]
    simp [stepCtrl, hex2, g1]

/-- Witness for C5 from the initial state with one light. -/
theorem liveness_expiry_witness :
    (onGoogleMeetStart (initCtrl ["1"]) 0).1.inMeeting = true ∧
    (stepCtrl (onGoogleMeetStart (initCtrl ["1"]) 0).1
        (Event.timerFire (WinResult.ok []) livenessWindowMs)).1.inMeeting = false ∧
    (stepCtrl (onGoogleMeetStart (initCtrl ["1"]) 0).1
        (Event.timerFire (WinResult.ok []) livenessWindowMs)).2
      = setLightReqs ["1"] false := by
  obtain ⟨a1, a2, a3, a4, a5, a6⟩ :=
    liveness_expiry (initCtrl ["1"]) 0 livenessWindowMs (WinResult.ok [])
      rfl rfl (by decide) rfl rfl
  exact ⟨a1, a3, a5⟩

/-! ## C6 -/

/-- C6: the webhook operations are idempotent: a second `onGoogleMeetStart`
without an intervening end leaves state unchanged and issues no light
request (only the first call fires the meeting transition), and
`onGoogleMeetEnd` while not in a meeting is a no-op on the meeting state
(meeting flag, Google-Meet flag, liveness timer) that fires no light
operation. -/
theorem webhook_idempotent (s : Ctrl) (t t' : Nat) (wr : WinResult)
    (hr : Reachable s) :
    (s.inMeeting = true → onGoogleMeetStart s t = (s, [])) ∧
    (s.inMeeting = false →
      (onGoogleMeetStart s t).2 = setLightReqs s.lightIds true ∧
      onGoogleMeetStart (onGoogleMeetStart s t).1 t'
        = ((onGoogleMeetStart s t).1, [])) ∧
    (s.inMeeting = false →
      (onGoogleMeetEnd s wr).2 = [] ∧
      (onGoogleMeetEnd s wr).1.inMeeting = false ∧
      (onGoogleMeetEnd s wr).1.googleMeetActive = s.googleMeetActive ∧
      (onGoogleMeetEnd s wr).1.meetTimer = s.meetTimer) := by
  refine ⟨?_, ?_, ?_⟩
  · intro h; exact onStart_in_meeting s t h
  · intro h
    have h1 := onStart_not_in_meeting s t h
    have him : (onGoogleMeetStart s t).1.inMeeting = true := by rw [h1]
    constructor
    · rw [h1]
    · exact onStart_in_meeting _ t' him
  · intro h
    obtain ⟨g1, g2, g3, g4⟩ := onEnd_behavior s wr
    obtain ⟨q1, q2, q3⟩ := g4 h
    have ht : s.meetTimer = none := by
      rcases hmt : s.meetTimer with _ | d
      · rfl
      · exact absurd (reachable_timerInv hr (by rw [hmt]; rfl)).1 (by simp [h])
    exact ⟨q3, q1, q2, by rw [g1, ht]⟩

/-- A reachable in-meeting state: bridge comes online, then the
meeting-start webhook arrives. -/
def busyCtrl : Ctrl :=
  (stepCtrl (stepCtrl (initCtrl ["1"]) (Event.netCheck true)).1
    (Event.request "POST" "/meeting-start" (WinResult.ok []) 0)).1

/-- `busyCtrl` is reachable. -/
theorem busyCtrl_reachable : Reachable busyCtrl :=
  Reachable.step (Event.request "POST" "/meeting-start" (WinResult.ok []) 0)
    (Reachable.step (Event.netCheck true) (Reachable.init ["1"]))

/-- Witness for C6 at the reachable in-meeting state `busyCtrl`. -/
theorem webhook_idempotent_witness :
    onGoogleMeetStart busyCtrl 5 = (busyCtrl, []) :=
  (webhook_idempotent busyCtrl 5 6 (WinResult.ok []) busyCtrl_reachable).1 (by decide)

/-! ## C9 -/

/-- A poll tick leaves `inMeeting` and `googleMeetActive` true when the
Google-Meet flag is set: the OR-reduction can never turn the state off
while the remote signal is active. -/
theorem check_keeps_meeting (s : Ctrl) (wr : WinResult)
    (him : s.inMeeting = true) (hg : s.googleMeetActive = true) :
    (check s wr).1.inMeeting = true ∧ (check s wr).1.googleMeetActive = true := by
  obtain ⟨ids, im, gma, net, pa, sa, nca, mt, srl, ex⟩ := s
  subst him; subst hg
  cases wr with
  | ok ws =>
    cases hS : detectSlackHuddle ws <;> cases hZ : detectZoomMeeting ws <;>
      simp [check, getStatusFromWindows, hS, hZ]
  | permissionError => cases srl <;> simp [check, getStatusFromWindows]
  | otherError => simp [check, getStatusFromWindows]

/-- Any sequence of poll ticks keeps `inMeeting` and `googleMeetActive`
true while the Google-Meet flag is set. -/
theorem runChecks_keeps_meeting (s : Ctrl) (wrs : List WinResult)
    (him : s.inMeeting = true) (hg : s.googleMeetActive = true) :
    (runChecks s wrs).inMeeting = true ∧
    (runChecks s wrs).googleMeetActive = true := by
  induction wrs generalizing s with
  | nil => exact ⟨him, hg⟩
  | cons wr t ihl =>
    obtain ⟨h1, h2⟩ := check_keeps_meeting s wr him hg
    exact ihl (check s wr).1 h1 h2

/-- C9: when `onGoogleMeetEnd` (or a timer expiry, which runs the same
code) finds a local signal active, `googleMeetActive` stays true and the
timer stays disarmed; every subsequent poll evaluation keeps `inMeeting`
true even after all local signals turn false, until a further
`onGoogleMeetEnd` with no local signal active clears both flags. -/
theorem remote_flag_persists (s : Ctrl) (wr wr' : WinResult)
    (wrs : List WinResult)
    (him : s.inMeeting = true) (hg : s.googleMeetActive = true)
    (hloc : (winSignals wr).1 = true ∨ (winSignals wr).2 = true)
    (hq1 : (winSignals wr').1 = false) (hq2 : (winSignals wr').2 = false) :
    (onGoogleMeetEnd s wr).1.googleMeetActive = true ∧
    (onGoogleMeetEnd s wr).1.inMeeting = true ∧
    (onGoogleMeetEnd s wr).1.meetTimer = none ∧
    (runChecks (onGoogleMeetEnd s wr).1 wrs).inMeeting = true ∧
    (onGoogleMeetEnd (runChecks (onGoogleMeetEnd s wr).1 wrs) wr').1.inMeeting
        = false ∧
    (onGoogleMeetEnd (runChecks (onGoogleMeetEnd s wr).1 wrs) wr').1.googleMeetActive
        = false := by
  obtain ⟨g1, g2, g3, g4⟩ := onEnd_behavior s wr
  obtain ⟨p1, p2, p3⟩ := g3 hloc
  have h1 : (onGoogleMeetEnd s wr).1.googleMeetActive = true := p2.trans hg
  have h2 : (onGoogleMeetEnd s wr).1.inMeeting = true := p1.trans him
  obtain ⟨r1, r2⟩ := runChecks_keeps_meeting (onGoogleMeetEnd s wr).1 wrs h2 h1
  obtain ⟨g1', g2', g3', g4'⟩ :=
    onEnd_behavior (runChecks (onGoogleMeetEnd s wr).1 wrs) wr'
  obtain ⟨q1, q2, q3⟩ := g2' hq1 hq2 r1
  exact ⟨h1, h2, g1, r1, q1, q2⟩

/-- Witness for C9 at a concrete in-meeting state: the remote end arrives
while a Slack huddle window is open, a poll with no windows follows, then a
final end with no windows clears the state. -/
theorem remote_flag_persists_witness :
    (runChecks (onGoogleMeetEnd meetCtrl (WinResult.ok [slackHuddleWin])).1
        [WinResult.ok []]).inMeeting = true ∧
    (onGoogleMeetEnd
        (runChecks (onGoogleMeetEnd meetCtrl (WinResult.ok [slackHuddleWin])).1
          [WinResult.ok []])
        (WinResult.ok [])).1.inMeeting = false := by
  obtain ⟨a1, a2, a3, a4, a5, a6⟩ :=
    remote_flag_persists meetCtrl (WinResult.ok [slackHuddleWin]) (WinResult.ok [])
      [WinResult.ok []] rfl rfl (Or.inl (by decide)) rfl rfl
  exact ⟨a4, a5⟩

/-! ## C10 -/

/-- C10: the webhook server answers every OPTIONS request with 204 and every
non-OPTIONS request with 200 and an empty body, always with the permissive
CORS headers; GET requests and POSTs to unrecognized paths are silently
accepted with no state change and no light request. -/
theorem server_responses (s : Ctrl) (m u : String) (wr : WinResult) (now : Nat) :
    (m = "OPTIONS" →
      (handleRequest s m u wr now).2.2
          = ⟨204, "", "*", "POST, OPTIONS", "Content-Type"⟩ ∧
      (handleRequest s m u wr now).1 = s ∧
      (handleRequest s m u wr now).2.1 = []) ∧
    (m ≠ "OPTIONS" →
      (handleRequest s m u wr now).2.2
          = ⟨200, "", "*", "POST, OPTIONS", "Content-Type"⟩) ∧
    (m ≠ "OPTIONS" →
      ¬(m = "POST" ∧
          (u = "/meeting-start" ∨ u = "/meeting-end" ∨ u = "/meeting-heartbeat")) →
      (handleRequest s m u wr now).1 = s ∧
      (handleRequest s m u wr now).2.1 = []) := by
  refine ⟨?_, ?_, ?_⟩
  · intro hm; simp [handleRequest, hm]
  · intro hm; simp [handleRequest, hm]
  · intro hm hnd
    have h1 : ¬(m = "POST" ∧ u = "/meeting-start") :=
      fun ⟨a, b⟩ => hnd ⟨a, Or.inl b⟩
    have h2 : ¬(m = "POST" ∧ u = "/meeting-end") :=
      fun ⟨a, b⟩ => hnd ⟨a, Or.inr (Or.inl b)⟩
    have h3 : ¬(m = "POST" ∧ u = "/meeting-heartbeat") :=
      fun ⟨a, b⟩ => hnd ⟨a, Or.inr (Or.inr b)⟩
    simp [handleRequest, hm, h1, h2, h3]

/-- Witness for C10 at a GET request to an unrecognized path. -/
theorem server_responses_witness :
    (handleRequest (initCtrl ["1"]) "GET" "/x" (WinResult.ok []) 0).2.2
        = ⟨200, "", "*", "POST, OPTIONS", "Content-Type"⟩ ∧
    (handleRequest (initCtrl ["1"]) "GET" "/x" (WinResult.ok []) 0).1
        = initCtrl ["1"] ∧
    (handleRequest (initCtrl ["1"]) "GET" "/x" (WinResult.ok []) 0).2.1 = [] := by
  have h := server_responses (initCtrl ["1"]) "GET" "/x" (WinResult.ok []) 0
  exact ⟨h.2.1 (by decide), (h.2.2 (by decide) (by decide)).1,
    (h.2.2 (by decide) (by decide)).2⟩

/-! ## C8 -/

/-- `permLogCount` is additive over list append. -/
theorem permLogCount_append (a b : List Log) :
    permLogCount (a ++ b) = permLogCount a + permLogCount b := by
  induction a with
  | nil => simp [permLogCount]
  | cons x t ih =>
    cases x with
    | lightError id => simp [permLogCount, ih]
    | turnOffError => simp [permLogCount, ih]
    | permissionWarn => simp [permLogCount, ih]; omega
    | windowError => simp [permLogCount, ih]

/-- Once the permission-warning latch is set, no evaluation sequence ever
emits another permission warning. -/
theorem permLog_zero (s : Ctrl) (wrs : List WinResult)
    (h : s.screenRecordingErrorLogged = true) :
    permLogCount (runStatuses s wrs) = 0 := by
  induction wrs generalizing s with
  | nil => simp [runStatuses, permLogCount]
  | cons wr t ihl =>
    cases wr with
    | ok ws =>
      simpa [runStatuses, getStatusFromWindows, permLogCount,
        permLogCount_append] using ihl s h
    | permissionError =>
      simpa [runStatuses, getStatusFromWindows, h, permLogCount,
        permLogCount_append] using ihl s h
    | otherError =>
      simpa [runStatuses, getStatusFromWindows, permLogCount,
        permLogCount_append] using ihl s h

/-- Across any sequence of evaluations, at most one permission warning is
ever emitted. -/
theorem permLog_bound (s : Ctrl) (wrs : List WinResult) :
    permLogCount (runStatuses s wrs) ≤ 1 := by
  induction wrs generalizing s with
  | nil => simp [runStatuses, permLogCount]
  | cons wr t ihl =>
    cases wr with
    | ok ws =>
      simpa [runStatuses, getStatusFromWindows, permLogCount,
        permLogCount_append] using ihl s
    | permissionError =>
      by_cases hf : s.screenRecordingErrorLogged
      · simpa [runStatuses, getStatusFromWindows, hf, permLogCount,
          permLogCount_append] using ihl s
      · have h2 : permLogCount
            (runStatuses { s with screenRecordingErrorLogged := true } t) = 0 :=
          permLog_zero { s with screenRecordingErrorLogged := true } t rfl
        simp [runStatuses, getStatusFromWindows, hf, permLogCount,
          permLogCount_append, h2]
    | otherError =>
      simpa [runStatuses, getStatusFromWindows, permLogCount,
        permLogCount_append] using ihl s

/-- C8 counterexample: after a permission-denied enumeration, a later
successful enumeration with a Slack huddle window reports the Slack signal
true — the code does not latch the local signals to false for all
subsequent evaluations. -/
theorem perm_not_latched_counterexample :
    (getStatusFromWindows (initCtrl ["1"]) WinResult.permissionError).2.1
        = (false, false) ∧
    (getStatusFromWindows
        (getStatusFromWindows (initCtrl ["1"]) WinResult.permissionError).1
        (WinResult.ok [slackHuddleWin])).2.1.1 = true :=
  ⟨rfl, by decide⟩

/-- C8 amended: every evaluation whose enumeration fails with permission
denied reports both local signals false, and from a fresh controller the
permission warning is logged at most once over any sequence of evaluations
(the `screenRecordingErrorLogged` flag latches); a later successful
enumeration is processed normally. -/
theorem perm_denied_spec (s : Ctrl) (ids : List String) (wrs : List WinResult) :
    (getStatusFromWindows s WinResult.permissionError).2.1 = (false, false) ∧
    permLogCount (runStatuses (initCtrl ids) wrs) ≤ 1 := by
  constructor
  · by_cases hf : s.screenRecordingErrorLogged <;>
      simp [getStatusFromWindows, hf]
  · exact permLog_bound (initCtrl ids) wrs

end InMeeting
